import Mathlib

/-
Verification of the parameter-broadcast control hub of the live2d-python
repository. The definitions below are a shallow embedding of the Python
classes in src/control_server.py (Live2DAPI, Live2DWebSocketServer) and of
the Flask-SocketIO handlers in src/main.py. Python floats are modelled as
rationals, Python dicts with string keys as insertion-ordered association
lists, event publication as an explicit list of emitted events, and a
raised exception as the error branch of Except.
-/

/-- Python dict read, d.get(k): return the value stored under the first
matching key, or none. -/
def dictGet {β : Type} : List (String × β) → String → Option β
  | [], _ => none
  | (k, v) :: rest, key => if k = key then some v else dictGet rest key

/-- Python dict assignment, d[k] = v: replace the value under an existing
key in place, or append the key at the end when it is absent. -/
def dictSet {β : Type} : List (String × β) → String → β → List (String × β)
  | [], key, value => [(key, value)]
  | (k, v) :: rest, key, value =>
      if k = key then (k, value) :: rest else (k, v) :: dictSet rest key value

/-- MotionPriority enum from src/control_server.py lines 19-23. -/
inductive MotionPriority
  | NONE
  | IDLE
  | NORMAL
  | FORCE
deriving DecidableEq

/-- The numeric value of each MotionPriority member. -/
def MotionPriority.value : MotionPriority → ℤ
  | .NONE => 0
  | .IDLE => 1
  | .NORMAL => 2
  | .FORCE => 3

/-- MotionPriority(p) in Python: look the integer up in the enum, raising
ValueError (modelled as none) when it is not a member value. -/
def MotionPriority.ofValue : ℤ → Option MotionPriority
  | 0 => some .NONE
  | 1 => some .IDLE
  | 2 => some .NORMAL
  | 3 => some .FORCE
  | _ => none

/-- A JSON value arriving in a message payload, split by whether Python
float() succeeds on it: num carries a value that parses as a number,
nonNumeric carries the text of a value on which float() raises. -/
inductive PyValue
  | num (q : ℚ)
  | nonNumeric (s : String)
deriving DecidableEq

/-- Python float(value): identity on numbers, ValueError otherwise. -/
def pyFloat : PyValue → Except String ℚ
  | .num q => .ok q
  | .nonNumeric s => .error ("could not convert string to float: " ++ s)

/-- Events published through Live2DAPI trigger calls to registered
handlers (src/control_server.py). -/
inductive Event
  | parameter_changed (id : String) (value : ℚ)
  | expression_changed (expression : String) (active : Bool)
  | motion_started (group : String) (index : ℤ) (priority : ℤ)
  | lip_sync_updated (level mouth_open : ℚ)
  | eye_tracking_updated (x y : ℚ)
  | head_rotation_updated (x y z : ℚ)
  | state_reset
deriving DecidableEq

/-- Live2DState dataclass, src/control_server.py lines 26-34. -/
structure Live2DState where
  parameters : List (String × ℚ)
  expressions : List (String × Bool)
  current_motion : String
  lip_sync_level : ℚ
  eye_blink_enabled : Bool
  breathing_enabled : Bool
deriving DecidableEq

/-- The parameter dict built in Live2DAPI __init__ and in reset_state
(src/control_server.py lines 42-55 and 252-265). -/
def defaultParameters : List (String × ℚ) :=
  [("ParamAngleX", 0), ("ParamAngleY", 0), ("ParamAngleZ", 0),
   ("ParamBodyAngleX", 0), ("ParamEyeLOpen", 1), ("ParamEyeROpen", 1),
   ("ParamEyeBallX", 0), ("ParamEyeBallY", 0), ("ParamMouthOpenY", 0),
   ("ParamBrowLY", 0), ("ParamBrowRY", 0), ("ParamBreath", 1/2)]

/-- The expression dict built in Live2DAPI __init__ and in reset_state
(src/control_server.py lines 56-61 and 266-271). -/
def defaultExpressions : List (String × Bool) :=
  [("smile", false), ("angry", false), ("sad", false), ("surprised", false)]

/-- The Live2DState value constructed in __init__ and reset_state: declared
defaults, empty current motion, zero lip sync, both channels enabled. -/
def defaultLive2DState : Live2DState :=
  { parameters := defaultParameters
    expressions := defaultExpressions
    current_motion := ""
    lip_sync_level := 0
    eye_blink_enabled := true
    breathing_enabled := true }

/-- The mutable fields of a Live2DAPI instance that the claims concern:
the state record and the motion priority field. -/
structure Live2DAPI where
  state : Live2DState
  current_priority : MotionPriority
deriving DecidableEq

/-- A freshly constructed Live2DAPI: default state, priority NONE
(src/control_server.py lines 40-68). -/
def initialAPI : Live2DAPI :=
  { state := defaultLive2DState, current_priority := .NONE }

/-- Live2DAPI.set_parameter (src/control_server.py lines 118-132), after a
successful float(value) conversion: when the id is a declared parameter,
clamp the value to [-1, 1], store it and publish one parameter_changed
event, returning True; otherwise return False with no mutation and no
event. -/
def set_parameter (api : Live2DAPI) (id : String) (value : ℚ) :
    Bool × Live2DAPI × List Event :=
  if (dictGet api.state.parameters id).isSome then
    let clamped := max (-1) (min 1 value)
    (true,
     { api with
        state := { api.state with
                    parameters := dictSet api.state.parameters id clamped } },
     [Event.parameter_changed id clamped])
  else
    (false, api, [])

/-- Live2DAPI.get_parameter (src/control_server.py lines 134-136). -/
def get_parameter (api : Live2DAPI) (id : String) : Option ℚ :=
  dictGet api.state.parameters id

/-- Live2DAPI.set_expression (src/control_server.py lines 138-150). -/
def set_expression (api : Live2DAPI) (expression : String) (active : Bool) :
    Bool × Live2DAPI × List Event :=
  if (dictGet api.state.expressions expression).isSome then
    (true,
     { api with
        state := { api.state with
                    expressions := dictSet api.state.expressions expression active } },
     [Event.expression_changed expression active])
  else
    (false, api, [])

/-- Live2DAPI.play_motion (src/control_server.py lines 152-179), the
synchronous part: reject without mutation when the requested priority is
below the current one; otherwise convert the integer with
MotionPriority(priority) (ValueError, modelled as the error branch, when
it is not a member value, reached before any mutation), store it and
publish motion_started. The delayed restore of the previous priority runs
on a separate thread two seconds later and is outside this step. -/
def play_motion (api : Live2DAPI) (group : String) (index : ℤ) (priority : ℤ) :
    Except String (Bool × Live2DAPI × List Event) :=
  if priority < api.current_priority.value then
    .ok (false, api, [])
  else
    match MotionPriority.ofValue priority with
    | some p =>
        .ok (true, { api with current_priority := p },
             [Event.motion_started group index priority])
    | none => .error "ValueError: not a valid MotionPriority"

/-- Live2DAPI.set_lip_sync (src/control_server.py lines 181-195): clamp the
level into [0, 1], store it, derive mouth_open = min(1, level * 1.5), store
that through set_parameter as ParamMouthOpenY, publish lip_sync_updated. -/
def set_lip_sync (api : Live2DAPI) (level : ℚ) : Live2DAPI × List Event :=
  let lvl := max 0 (min 1 level)
  let api1 := { api with state := { api.state with lip_sync_level := lvl } }
  let mouth_open := min 1 (lvl * (3/2))
  let r := set_parameter api1 "ParamMouthOpenY" mouth_open
  (r.2.1, r.2.2 ++ [Event.lip_sync_updated lvl mouth_open])

/-- Live2DAPI.set_eye_tracking (src/control_server.py lines 197-208): clamp
x and y into [-1, 1], store them through set_parameter on the eyeball
parameters, publish eye_tracking_updated. -/
def set_eye_tracking (api : Live2DAPI) (x y : ℚ) : Live2DAPI × List Event :=
  let cx := max (-1) (min 1 x)
  let cy := max (-1) (min 1 y)
  let r1 := set_parameter api "ParamEyeBallX" cx
  let r2 := set_parameter r1.2.1 "ParamEyeBallY" cy
  (r2.2.1, r1.2.2 ++ r2.2.2 ++ [Event.eye_tracking_updated cx cy])

/-- Live2DAPI.set_head_rotation (src/control_server.py lines 210-222):
clamp x, y, z into [-30, 30] degrees, store each divided by 30 through
set_parameter on the angle parameters, publish head_rotation_updated. -/
def set_head_rotation (api : Live2DAPI) (x y z : ℚ) : Live2DAPI × List Event :=
  let cx := max (-30) (min 30 x)
  let cy := max (-30) (min 30 y)
  let cz := max (-30) (min 30 z)
  let r1 := set_parameter api "ParamAngleX" (cx / 30)
  let r2 := set_parameter r1.2.1 "ParamAngleY" (cy / 30)
  let r3 := set_parameter r2.2.1 "ParamAngleZ" (cz / 30)
  (r3.2.1, r1.2.2 ++ r2.2.2 ++ r3.2.2 ++ [Event.head_rotation_updated cx cy cz])

/-- Live2DAPI.reset_state (src/control_server.py lines 249-273): replace
the whole state record with a freshly built default one and publish a
single state_reset event. The current_priority field is not touched. -/
def reset_state (api : Live2DAPI) : Live2DAPI × List Event :=
  ({ api with state := defaultLive2DState }, [Event.state_reset])

/-- Live2DAPI.get_state (src/control_server.py lines 245-247) returns
asdict(self.state): the scalar fields copied by value plus deep copies of
the two dicts. The copy semantics is modelled by the heap development
below (get_state_heap). -/
def get_state (api : Live2DAPI) : Live2DState :=
  api.state

/-- Direct replies that Live2DWebSocketServer.handle_message sends back to
the originating websocket (src/control_server.py lines 309-408). -/
inductive Reply
  | parameter_set (success : Bool) (id : String) (value : PyValue)
  | expression_set (success : Bool) (expression : String) (active : Bool)
  | error (message : String)
deriving DecidableEq

/-- The set_parameter call as made from handle_message, where value is the
raw JSON payload field: the membership test runs first, then float(value)
inside the clamp expression; a ValueError there propagates out of
set_parameter before the dict assignment, so the error branch carries no
mutation (src/control_server.py lines 118-132). -/
def set_parameter_raw (api : Live2DAPI) (id : String) (value : PyValue) :
    Except String (Bool × Live2DAPI × List Event) :=
  if (dictGet api.state.parameters id).isSome then
    match pyFloat value with
    | .error e => .error e
    | .ok q => .ok (set_parameter api id q)
  else
    .ok (false, api, [])

/-- The set_parameter branch of Live2DWebSocketServer.handle_message
(src/control_server.py lines 317-326 with the surrounding try block, lines
311 and 403-408): on success reply parameter_set to the caller; on an
exception reply an error message to the caller, with the api state left as
the raised call left it (unmutated) and the hub still running, which is
modelled by this function being total. -/
def handle_message_set_parameter (api : Live2DAPI) (id : String) (value : PyValue) :
    Live2DAPI × List Event × Reply :=
  match set_parameter_raw api id value with
  | .ok (success, api2, events) => (api2, events, Reply.parameter_set success id value)
  | .error e => (api, [], Reply.error e)

/-- The set_expression branch of Live2DWebSocketServer.handle_message
(src/control_server.py lines 328-337): data.get with default True when the
active field is absent from the payload, then Live2DAPI.set_expression. -/
def handle_message_set_expression (api : Live2DAPI) (expression : String)
    (active? : Option Bool) : Live2DAPI × List Event × Reply :=
  let active := active?.getD true
  let r := set_expression api expression active
  (r.2.1, r.2.2, Reply.expression_set r.1 expression active)

/-- The model state held by src/main.py (Live2DState dataclass there, lines
18-47): same parameter ids except ParamBreath, same expressions, and a
lip_sync float field. -/
structure MainModelState where
  parameters : List (String × ℚ)
  expressions : List (String × Bool)
  current_motion : String
  lip_sync : ℚ
deriving DecidableEq

/-- Events emitted to clients by src/main.py handlers. -/
inductive MainEvent
  | parameter_update (id : String) (value : ℚ)
  | expression_update (expression : String) (active : Bool)
  | motion_start (group : String) (index : ℤ) (priority : ℤ)
deriving DecidableEq

/-- The module-level model_state of src/main.py lines 27-47. -/
def mainInitialState : MainModelState :=
  { parameters :=
      [("ParamAngleX", 0), ("ParamAngleY", 0), ("ParamAngleZ", 0),
       ("ParamBodyAngleX", 0), ("ParamEyeLOpen", 1), ("ParamEyeROpen", 1),
       ("ParamEyeBallX", 0), ("ParamEyeBallY", 0), ("ParamMouthOpenY", 0),
       ("ParamBrowLY", 0), ("ParamBrowRY", 0)]
    expressions := defaultExpressions
    current_motion := ""
    lip_sync := 0 }

/-- handle_set_expression in src/main.py lines 107-121: the active payload
field defaults to False when absent; a declared expression is stored with
bool(active) and an expression_update is broadcast, an unknown expression
is ignored. -/
def main_handle_set_expression (st : MainModelState) (expr : String)
    (active? : Option Bool) : MainModelState × List MainEvent :=
  let active := active?.getD false
  if (dictGet st.expressions expr).isSome then
    ({ st with expressions := dictSet st.expressions expr active },
     [MainEvent.expression_update expr active])
  else
    (st, [])

/-- One inbound mutation handled by the control server, covering the
operations named by the state invariant: set_parameter, set_expression,
lip_sync, eye_tracking, head_rotation, play_motion, reset_state. -/
inductive Op
  | setParam (id : String) (v : ℚ)
  | setExpr (name : String) (active : Bool)
  | lipSync (level : ℚ)
  | eyeTracking (x y : ℚ)
  | headRotation (x y z : ℚ)
  | playMotion (group : String) (index priority : ℤ)
  | reset

/-- Apply one operation to the api state, keeping only the resulting
state; a ValueError raised by play_motion leaves the state unchanged. -/
def applyOp (api : Live2DAPI) : Op → Live2DAPI
  | .setParam id v => (set_parameter api id v).2.1
  | .setExpr n a => (set_expression api n a).2.1
  | .lipSync l => (set_lip_sync api l).1
  | .eyeTracking x y => (set_eye_tracking api x y).1
  | .headRotation x y z => (set_head_rotation api x y z).1
  | .playMotion g i p =>
      match play_motion api g i p with
      | .ok r => r.2.1
      | .error _ => api
  | .reset => (reset_state api).1

/-- Every stored parameter value lies in [-1, 1] and the stored lip sync
level lies in [0, 1]. -/
def StateInv (api : Live2DAPI) : Prop :=
  (∀ p ∈ api.state.parameters, -1 ≤ p.2 ∧ p.2 ≤ 1) ∧
  0 ≤ api.state.lip_sync_level ∧ api.state.lip_sync_level ≤ 1

/-- A heap of Python dict objects: contents of each parameter dict and
each expression dict by address, plus the next fresh address. Models the
object graph relevant to asdict copying. -/
structure Heap where
  paramObjs : ℕ → List (String × ℚ)
  exprObjs : ℕ → List (String × Bool)
  next : ℕ

/-- The addresses through which a Live2DState (or a returned state dict)
reaches its two mutable dict objects. -/
structure StateRef where
  paramsAddr : ℕ
  exprsAddr : ℕ
deriving DecidableEq

/-- In-place mutation of the parameter dict object at one address, as in
self.state.parameters[param_id] = clamped_value. -/
def heapWriteParam (h : Heap) (a : ℕ) (k : String) (v : ℚ) : Heap :=
  { h with paramObjs := fun b => if b = a then dictSet (h.paramObjs a) k v else h.paramObjs b }

/-- In-place mutation of the expression dict object at one address. -/
def heapWriteExpr (h : Heap) (a : ℕ) (k : String) (v : Bool) : Heap :=
  { h with exprObjs := fun b => if b = a then dictSet (h.exprObjs a) k v else h.exprObjs b }

/-- Live2DAPI.get_state as asdict(self.state) acts on the heap
(src/control_server.py lines 245-247): dataclasses.asdict recursively
copies the dataclass into fresh dict objects, so the returned structure
reaches two newly allocated dicts whose contents equal the current store
contents; the store keeps its own addresses. -/
def get_state_heap (h : Heap) (store : StateRef) : StateRef × Heap :=
  let snapP := h.next
  let snapE := h.next + 1
  (⟨snapP, snapE⟩,
   { paramObjs := fun b => if b = snapP then h.paramObjs store.paramsAddr else h.paramObjs b
     exprObjs := fun b => if b = snapE then h.exprObjs store.exprsAddr else h.exprObjs b
     next := h.next + 2 })

/-- A heap in which the store refers to already-allocated objects. -/
def HeapWF (h : Heap) (store : StateRef) : Prop :=
  store.paramsAddr < h.next ∧ store.exprsAddr < h.next

/-- The process-start heap: the store dicts live at addresses 0 and 1. -/
def initialHeap : Heap :=
  { paramObjs := fun _ => defaultParameters
    exprObjs := fun _ => defaultExpressions
    next := 2 }

/-- The store reference at process start. -/
def initialStateRef : StateRef := ⟨0, 1⟩

/-
Helper lemmas.
-/

theorem dictGet_dictSet_self {β : Type} (l : List (String × β)) (k : String) (v : β) :
    dictGet (dictSet l k v) k = some v := by
  induction l with
  | nil => simp [dictGet, dictSet]
  | cons hd tl ih =>
      obtain ⟨k1, v1⟩ := hd
      by_cases hk : k1 = k
      · simp [dictGet, dictSet, hk]
      · simp [dictGet, dictSet, hk, ih]

theorem dictGet_dictSet_ne {β : Type} (l : List (String × β)) (k k2 : String) (v : β)
    (h : k ≠ k2) : dictGet (dictSet l k v) k2 = dictGet l k2 := by
  induction l with
  | nil => simp [dictGet, dictSet, h]
  | cons hd tl ih =>
      obtain ⟨k1, v1⟩ := hd
      by_cases hk : k1 = k
      · subst hk
        simp [dictGet, dictSet, h]
      · simp [dictGet, dictSet, hk, ih]

theorem mem_dictSet {β : Type} (l : List (String × β)) (k : String) (v : β)
    (p : String × β) (hp : p ∈ dictSet l k v) : p ∈ l ∨ p.2 = v := by
  induction l with
  | nil =>
      simp [dictSet] at hp
      right
      simp [hp]
  | cons hd tl ih =>
      obtain ⟨k1, v1⟩ := hd
      by_cases hk : k1 = k
      · simp [dictSet, hk] at hp
        rcases hp with hp | hp
        · right; simp [hp]
        · left; exact List.mem_cons_of_mem _ hp
      · simp [dictSet, hk] at hp
        rcases hp with hp | hp
        · left; simp [hp]
        · rcases ih hp with h1 | h1
          · left; exact List.mem_cons_of_mem _ h1
          · right; exact h1

theorem clamp11_mem (v : ℚ) : -1 ≤ max (-1) (min 1 v) ∧ max (-1) (min 1 v) ≤ 1 :=
  ⟨le_max_left _ _, max_le (by norm_num) (min_le_left _ _)⟩

theorem clamp11_of_bounds {x : ℚ} (h1 : -1 ≤ x) (h2 : x ≤ 1) :
    max (-1) (min 1 x) = x := by
  rw [min_eq_right h2, max_eq_right h1]

theorem set_parameter_true (api : Live2DAPI) (id : String) (v : ℚ)
    (h : (dictGet api.state.parameters id).isSome) :
    set_parameter api id v =
      (true,
       { api with
          state := { api.state with
                      parameters := dictSet api.state.parameters id (max (-1) (min 1 v)) } },
       [Event.parameter_changed id (max (-1) (min 1 v))]) := by
  simp [set_parameter, h]

theorem set_parameter_false (api : Live2DAPI) (id : String) (v : ℚ)
    (h : ¬ (dictGet api.state.parameters id).isSome) :
    set_parameter api id v = (false, api, []) := by
  simp [set_parameter, h]

/-- C1: for every input id and value v, if id is a declared parameter then
set_parameter returns True and get_parameter afterwards yields
clamp(v, -1, 1) (the declared bounds of every parameter are [-1, 1]); if
id is not declared, set_parameter returns False, leaves the whole api
state unchanged and publishes no event. -/
theorem C1_set_parameter_clamps (api : Live2DAPI) (id : String) (v : ℚ) :
    ((dictGet api.state.parameters id).isSome →
       (set_parameter api id v).1 = true ∧
       get_parameter (set_parameter api id v).2.1 id = some (max (-1) (min 1 v))) ∧
    (¬ (dictGet api.state.parameters id).isSome →
       (set_parameter api id v).1 = false ∧
       (set_parameter api id v).2.1 = api ∧
       (set_parameter api id v).2.2 = []) := by
  constructor
  · intro h
    rw [set_parameter_true api id v h]
    exact ⟨rfl, by simp [get_parameter, dictGet_dictSet_self]⟩
  · intro h
    rw [set_parameter_false api id v h]
    exact ⟨rfl, rfl, rfl⟩

/-- Witness for C1: ParamAngleX is declared, so setting it to 2 succeeds
and stores the clamped value 1. -/
theorem C1_witness :
    (dictGet initialAPI.state.parameters "ParamAngleX").isSome ∧
    ((set_parameter initialAPI "ParamAngleX" 2).1 = true ∧
     get_parameter (set_parameter initialAPI "ParamAngleX" 2).2.1 "ParamAngleX"
       = some (max (-1) (min 1 2))) :=
  ⟨by decide, (C1_set_parameter_clamps initialAPI "ParamAngleX" 2).1 (by decide)⟩

/-- C3: in every state, reset_state replaces every parameter and every
expression with its declared default and publishes exactly one state_reset
event, with no parameter_changed or expression_changed events. -/
theorem C3_reset_restores_defaults (api : Live2DAPI) :
    (reset_state api).1.state.parameters = defaultParameters ∧
    (reset_state api).1.state.expressions = defaultExpressions ∧
    (reset_state api).2 = [Event.state_reset] :=
  ⟨rfl, rfl, rfl⟩

/-- C7: a set_parameter message naming a declared parameter with a value on
which float() raises performs no mutation (the membership test passes, but
the conversion raises before the dict assignment), and the hub replies
with an error event to the originating connection only, publishing no
broadcast event; the handler returns normally, so the hub is not
terminated. -/
theorem C7_nonnumeric_rejected (api : Live2DAPI) (id s : String)
    (hid : (dictGet api.state.parameters id).isSome) :
    handle_message_set_parameter api id (PyValue.nonNumeric s)
      = (api, [], Reply.error ("could not convert string to float: " ++ s)) := by
  simp [handle_message_set_parameter, set_parameter_raw, pyFloat, hid]

/-- Witness for C7: sending the string value abc for ParamAngleX leaves the
freshly constructed api unchanged and replies with an error. -/
theorem C7_witness :
    (dictGet initialAPI.state.parameters "ParamAngleX").isSome ∧
    handle_message_set_parameter initialAPI "ParamAngleX" (PyValue.nonNumeric "abc")
      = (initialAPI, [], Reply.error ("could not convert string to float: " ++ "abc")) :=
  ⟨by decide, C7_nonnumeric_rejected initialAPI "ParamAngleX" "abc" (by decide)⟩

/-- Counterexample for C8: in the src/main.py handler, an inbound
set_expression for the declared expression smile whose payload omits the
active field stores the expression as inactive, not active: the claim that
the active field defaults to true fails on this entry point (main.py line
111 defaults it to False). -/
theorem C8_counterexample :
    dictGet (main_handle_set_expression mainInitialState "smile" none).1.expressions "smile"
        = some false ∧
    ¬ dictGet (main_handle_set_expression mainInitialState "smile" none).1.expressions "smile"
        = some true := by
  constructor
  · decide
  · decide

/-- C8 as amended: the two entry points disagree on the default. In
Live2DWebSocketServer.handle_message an inbound set_expression naming a
declared expression with the active field omitted stores the expression as
active (default True); in the src/main.py handler the same message stores
it as inactive (default False). -/
theorem C8_amended_defaults (api : Live2DAPI) (st : MainModelState) (e : String)
    (h1 : (dictGet api.state.expressions e).isSome)
    (h2 : (dictGet st.expressions e).isSome) :
    dictGet (handle_message_set_expression api e none).1.state.expressions e = some true ∧
    dictGet (main_handle_set_expression st e none).1.expressions e = some false := by
  constructor
  · simp [handle_message_set_expression, set_expression, h1, dictGet_dictSet_self]
  · simp [main_handle_set_expression, h2, dictGet_dictSet_self]

/-- Witness for the amended C8: the declared expression smile defaults to
active on the websocket control server and to inactive in main.py. -/
theorem C8_witness :
    ((dictGet initialAPI.state.expressions "smile").isSome ∧
     (dictGet mainInitialState.expressions "smile").isSome) ∧
    (dictGet (handle_message_set_expression initialAPI "smile" none).1.state.expressions "smile"
       = some true ∧
     dictGet (main_handle_set_expression mainInitialState "smile" none).1.expressions "smile"
       = some false) :=
  ⟨⟨by decide, by decide⟩,
   C8_amended_defaults initialAPI mainInitialState "smile" (by decide) (by decide)⟩

theorem MotionPriority.ofValue_value (n : ℤ) (p : MotionPriority)
    (h : MotionPriority.ofValue n = some p) : p.value = n := by
  unfold MotionPriority.ofValue at h
  split at h <;>
    first
      | (cases h; rfl)
      | exact absurd h (by simp)

/-- C4: for every current priority and every requested priority value that
is a member of the MotionPriority enum, play_motion returns False and
leaves current_priority unchanged when the requested priority is strictly
below the current one, and otherwise returns True and sets
current_priority to the requested priority. -/
theorem C4_play_motion_priority (api : Live2DAPI) (g : String) (i priority : ℤ)
    (hp : (MotionPriority.ofValue priority).isSome) :
    (priority < api.current_priority.value →
       play_motion api g i priority = .ok (false, api, [])) ∧
    (api.current_priority.value ≤ priority →
       ∃ p, MotionPriority.ofValue priority = some p ∧ p.value = priority ∧
         play_motion api g i priority =
           .ok (true, { api with current_priority := p },
                [Event.motion_started g i priority])) := by
  constructor
  · intro h
    simp [play_motion, h]
  · intro h
    obtain ⟨p, hp2⟩ := Option.isSome_iff_exists.mp hp
    refine ⟨p, hp2, MotionPriority.ofValue_value priority p hp2, ?_⟩
    simp [play_motion, not_lt.mpr h, hp2]

/-- Witness for C4: with current priority NORMAL, a request at IDLE (1) is
rejected leaving the state unchanged, and a request at FORCE (3) is
accepted and sets the current priority to FORCE. -/
theorem C4_witness :
    (MotionPriority.ofValue 1).isSome ∧ (MotionPriority.ofValue 3).isSome ∧
    play_motion { initialAPI with current_priority := MotionPriority.NORMAL } "tap" 0 1
      = .ok (false, { initialAPI with current_priority := MotionPriority.NORMAL }, []) ∧
    (∃ p, MotionPriority.ofValue 3 = some p ∧ p.value = 3 ∧
       play_motion { initialAPI with current_priority := MotionPriority.NORMAL } "tap" 0 3
         = .ok (true,
                { { initialAPI with current_priority := MotionPriority.NORMAL } with
                    current_priority := p },
                [Event.motion_started "tap" 0 3])) := by
  refine ⟨by decide, by decide, ?_, ?_⟩
  · exact (C4_play_motion_priority
      { initialAPI with current_priority := MotionPriority.NORMAL } "tap" 0 1
      (by decide)).1 (by decide)
  · exact (C4_play_motion_priority
      { initialAPI with current_priority := MotionPriority.NORMAL } "tap" 0 3
      (by decide)).2 (by decide)

theorem lip_mouth_formula (level : ℚ) :
    min 1 (max 0 (min 1 level) * (3/2)) = max 0 (min 1 (level * (3/2))) := by
  rcases le_total level 0 with h0 | h0 <;> rcases le_total level 1 with h1 | h1 <;>
    simp [min_def, max_def] <;> split_ifs <;> linarith

/-- C5: for every lip-sync level, set_lip_sync stores the level clamped to
[0, 1] as the lip sync level and stores clamp(level * 1.5, 0, 1) as the
ParamMouthOpenY parameter. -/
theorem C5_lip_sync_derivation (api : Live2DAPI) (level : ℚ)
    (hm : (dictGet api.state.parameters "ParamMouthOpenY").isSome) :
    (set_lip_sync api level).1.state.lip_sync_level = max 0 (min 1 level) ∧
    get_parameter (set_lip_sync api level).1 "ParamMouthOpenY"
      = some (max 0 (min 1 (level * (3/2)))) := by
  have hm1 : (dictGet
      ({ api with state := { api.state with lip_sync_level := max 0 (min 1 level) } }
        : Live2DAPI).state.parameters "ParamMouthOpenY").isSome := hm
  have hb0 : 0 ≤ min 1 (max 0 (min 1 level) * (3/2)) :=
    le_min (by norm_num) (mul_nonneg (le_max_left _ _) (by norm_num))
  have hb1 : min 1 (max 0 (min 1 level) * (3/2)) ≤ 1 := min_le_left _ _
  constructor
  · simp only [set_lip_sync]
    rw [set_parameter_true _ _ _ hm1]
  · simp only [set_lip_sync, get_parameter]
    rw [set_parameter_true _ _ _ hm1]
    simp only [dictGet_dictSet_self]
    rw [clamp11_of_bounds (by linarith) hb1, lip_mouth_formula]

/-- Witness for C5: lip sync at level 0.8 stores lip sync level 0.8 and
ParamMouthOpenY equal to 1. -/
theorem C5_witness :
    (dictGet initialAPI.state.parameters "ParamMouthOpenY").isSome ∧
    ((set_lip_sync initialAPI (4/5)).1.state.lip_sync_level = max 0 (min 1 (4/5)) ∧
     get_parameter (set_lip_sync initialAPI (4/5)).1 "ParamMouthOpenY"
       = some (max 0 (min 1 ((4/5) * (3/2))))) :=
  ⟨by decide, C5_lip_sync_derivation initialAPI (4/5) (by decide)⟩

/-- C10: set_eye_tracking never rejects its input; it clamps x and y into
[-1, 1] and stores the clamped values on ParamEyeBallX and ParamEyeBallY,
also for inputs outside [-1, 1]. -/
theorem C10_eye_tracking_clamps (api : Live2DAPI) (x y : ℚ)
    (hx : (dictGet api.state.parameters "ParamEyeBallX").isSome)
    (hy : (dictGet api.state.parameters "ParamEyeBallY").isSome) :
    get_parameter (set_eye_tracking api x y).1 "ParamEyeBallX"
      = some (max (-1) (min 1 x)) ∧
    get_parameter (set_eye_tracking api x y).1 "ParamEyeBallY"
      = some (max (-1) (min 1 y)) := by
  have hne1 : ("ParamEyeBallX" : String) ≠ "ParamEyeBallY" := by decide
  have hne2 : ("ParamEyeBallY" : String) ≠ "ParamEyeBallX" := by decide
  have hYX := fun (l : List (String × ℚ)) (v : ℚ) =>
    dictGet_dictSet_ne l "ParamEyeBallY" "ParamEyeBallX" v hne2
  simp only [set_eye_tracking, get_parameter]
  rw [set_parameter_true _ _ _ hx]
  dsimp only
  have hy2 : (dictGet (dictSet api.state.parameters "ParamEyeBallX"
      (max (-1) (min 1 (max (-1) (min 1 x))))) "ParamEyeBallY").isSome := by
    rw [dictGet_dictSet_ne _ _ _ _ hne1]; exact hy
  rw [set_parameter_true _ _ _ hy2]
  dsimp only
  constructor
  · rw [hYX, dictGet_dictSet_self,
        clamp11_of_bounds (clamp11_mem x).1 (clamp11_mem x).2]
  · rw [dictGet_dictSet_self,
        clamp11_of_bounds (clamp11_mem y).1 (clamp11_mem y).2]

/-- Witness for C10: eye tracking input (2, -3), outside [-1, 1], is not
rejected and is stored clamped. -/
theorem C10_witness :
    ((dictGet initialAPI.state.parameters "ParamEyeBallX").isSome ∧
     (dictGet initialAPI.state.parameters "ParamEyeBallY").isSome) ∧
    (get_parameter (set_eye_tracking initialAPI 2 (-3)).1 "ParamEyeBallX"
       = some (max (-1) (min 1 2)) ∧
     get_parameter (set_eye_tracking initialAPI 2 (-3)).1 "ParamEyeBallY"
       = some (max (-1) (min 1 (-3)))) :=
  ⟨⟨by decide, by decide⟩,
   C10_eye_tracking_clamps initialAPI 2 (-3) (by decide) (by decide)⟩

theorem clamp30_of_bounds {x : ℚ} (h1 : -30 ≤ x) (h2 : x ≤ 30) :
    max (-30) (min 30 x) = x := by
  rw [min_eq_right h2, max_eq_right h1]

theorem get_parameter_set_parameter_self (api : Live2DAPI) (id : String) (v : ℚ)
    (h : (dictGet api.state.parameters id).isSome) :
    get_parameter (set_parameter api id v).2.1 id = some (max (-1) (min 1 v)) := by
  rw [set_parameter_true _ _ _ h]
  simp [get_parameter, dictGet_dictSet_self]

theorem get_parameter_set_parameter_ne (api : Live2DAPI) (id id2 : String) (v : ℚ)
    (h : id ≠ id2) :
    get_parameter (set_parameter api id v).2.1 id2 = get_parameter api id2 := by
  by_cases hs : (dictGet api.state.parameters id).isSome
  · rw [set_parameter_true _ _ _ hs]
    simp [get_parameter, dictGet_dictSet_ne _ _ _ _ h]
  · rw [set_parameter_false _ _ _ hs]

theorem isSome_params_set_parameter (api : Live2DAPI) (id id2 : String) (v : ℚ) :
    (dictGet (set_parameter api id v).2.1.state.parameters id2).isSome
      = (dictGet api.state.parameters id2).isSome := by
  by_cases hs : (dictGet api.state.parameters id).isSome
  · rw [set_parameter_true _ _ _ hs]
    by_cases h : id = id2
    · subst h
      simp [dictGet_dictSet_self, hs]
    · simp [dictGet_dictSet_ne _ _ _ _ h]
  · rw [set_parameter_false _ _ _ hs]

/-- C6: for head rotation inputs x, y, z in degrees within [-30, 30], the
operation stores degrees divided by 30 on ParamAngleX, ParamAngleY and
ParamAngleZ. -/
theorem C6_head_rotation_normalizes (api : Live2DAPI) (x y z : ℚ)
    (hx1 : -30 ≤ x) (hx2 : x ≤ 30) (hy1 : -30 ≤ y) (hy2 : y ≤ 30)
    (hz1 : -30 ≤ z) (hz2 : z ≤ 30)
    (kx : (dictGet api.state.parameters "ParamAngleX").isSome)
    (ky : (dictGet api.state.parameters "ParamAngleY").isSome)
    (kz : (dictGet api.state.parameters "ParamAngleZ").isSome) :
    get_parameter (set_head_rotation api x y z).1 "ParamAngleX" = some (x / 30) ∧
    get_parameter (set_head_rotation api x y z).1 "ParamAngleY" = some (y / 30) ∧
    get_parameter (set_head_rotation api x y z).1 "ParamAngleZ" = some (z / 30) := by
  have hYX : ("ParamAngleY" : String) ≠ "ParamAngleX" := by decide
  have hZX : ("ParamAngleZ" : String) ≠ "ParamAngleX" := by decide
  have hZY : ("ParamAngleZ" : String) ≠ "ParamAngleY" := by decide
  have hXY : ("ParamAngleX" : String) ≠ "ParamAngleY" := by decide
  simp only [set_head_rotation]
  rw [clamp30_of_bounds hx1 hx2, clamp30_of_bounds hy1 hy2, clamp30_of_bounds hz1 hz2]
  have ky1 : (dictGet (set_parameter api "ParamAngleX" (x / 30)).2.1.state.parameters
      "ParamAngleY").isSome := by
    rw [isSome_params_set_parameter]; exact ky
  have kz1 : (dictGet (set_parameter (set_parameter api "ParamAngleX" (x / 30)).2.1
      "ParamAngleY" (y / 30)).2.1.state.parameters "ParamAngleZ").isSome := by
    rw [isSome_params_set_parameter, isSome_params_set_parameter]; exact kz
  refine ⟨?_, ?_, ?_⟩
  · rw [get_parameter_set_parameter_ne _ _ _ _ hZX,
        get_parameter_set_parameter_ne _ _ _ _ hYX,
        get_parameter_set_parameter_self _ _ _ kx,
        clamp11_of_bounds (by linarith : (-1 : ℚ) ≤ x / 30) (by linarith : x / 30 ≤ 1)]
  · rw [get_parameter_set_parameter_ne _ _ _ _ hZY,
        get_parameter_set_parameter_self _ _ _ ky1,
        clamp11_of_bounds (by linarith : (-1 : ℚ) ≤ y / 30) (by linarith : y / 30 ≤ 1)]
  · rw [get_parameter_set_parameter_self _ _ _ kz1,
        clamp11_of_bounds (by linarith : (-1 : ℚ) ≤ z / 30) (by linarith : z / 30 ≤ 1)]

/-- Witness for C6: head_rotation(x=15, y=-30, z=0) stores ParamAngleX =
0.5, ParamAngleY = -1 and ParamAngleZ = 0. -/
theorem C6_witness :
    ((-30 : ℚ) ≤ 15 ∧ (15 : ℚ) ≤ 30 ∧ (-30 : ℚ) ≤ -30 ∧ (-30 : ℚ) ≤ 30 ∧
     (-30 : ℚ) ≤ 0 ∧ (0 : ℚ) ≤ 30 ∧
     (dictGet initialAPI.state.parameters "ParamAngleX").isSome ∧
     (dictGet initialAPI.state.parameters "ParamAngleY").isSome ∧
     (dictGet initialAPI.state.parameters "ParamAngleZ").isSome) ∧
    (get_parameter (set_head_rotation initialAPI 15 (-30) 0).1 "ParamAngleX"
       = some (1/2) ∧
     get_parameter (set_head_rotation initialAPI 15 (-30) 0).1 "ParamAngleY"
       = some (-1) ∧
     get_parameter (set_head_rotation initialAPI 15 (-30) 0).1 "ParamAngleZ"
       = some 0) := by
  refine ⟨⟨by norm_num, by norm_num, by norm_num, by norm_num, by norm_num,
           by norm_num, by decide, by decide, by decide⟩, ?_⟩
  have h := C6_head_rotation_normalizes initialAPI 15 (-30) 0
    (by norm_num) (by norm_num) (by norm_num) (by norm_num) (by norm_num) (by norm_num)
    (by decide) (by decide) (by decide)
  norm_num at h
  exact h

theorem defaultParams_inRange : ∀ p ∈ defaultParameters, -1 ≤ p.2 ∧ p.2 ≤ 1 := by
  intro p hp
  simp only [defaultParameters, List.mem_cons, List.not_mem_nil, or_false] at hp
  rcases hp with h|h|h|h|h|h|h|h|h|h|h|h <;> subst h <;> norm_num

theorem paramsInRange_dictSet {P : List (String × ℚ)} {k : String} {v : ℚ}
    (hP : ∀ p ∈ P, -1 ≤ p.2 ∧ p.2 ≤ 1) (hv : -1 ≤ v ∧ v ≤ 1) :
    ∀ p ∈ dictSet P k v, -1 ≤ p.2 ∧ p.2 ≤ 1 := by
  intro p hp
  rcases mem_dictSet P k v p hp with h | h
  · exact hP p h
  · rw [h]; exact hv

theorem StateInv_set_parameter {api : Live2DAPI} (h : StateInv api)
    (id : String) (v : ℚ) : StateInv (set_parameter api id v).2.1 := by
  by_cases hs : (dictGet api.state.parameters id).isSome
  · rw [set_parameter_true _ _ _ hs]
    exact ⟨paramsInRange_dictSet h.1 (clamp11_mem v), h.2⟩
  · rw [set_parameter_false _ _ _ hs]
    exact h

theorem StateInv_set_expression {api : Live2DAPI} (h : StateInv api)
    (e : String) (a : Bool) : StateInv (set_expression api e a).2.1 := by
  by_cases hs : (dictGet api.state.expressions e).isSome
  · simp only [set_expression, hs, if_pos]
    exact ⟨h.1, h.2⟩
  · simp only [set_expression, hs]
    simpa using h

theorem StateInv_set_lip_sync {api : Live2DAPI} (h : StateInv api)
    (level : ℚ) : StateInv (set_lip_sync api level).1 := by
  simp only [set_lip_sync]
  have h1 : StateInv
      { api with state := { api.state with lip_sync_level := max 0 (min 1 level) } } :=
    ⟨h.1, le_max_left _ _, max_le (by norm_num) (min_le_left _ _)⟩
  exact StateInv_set_parameter h1 _ _

theorem StateInv_set_eye_tracking {api : Live2DAPI} (h : StateInv api)
    (x y : ℚ) : StateInv (set_eye_tracking api x y).1 := by
  simp only [set_eye_tracking]
  exact StateInv_set_parameter (StateInv_set_parameter h _ _) _ _

theorem StateInv_set_head_rotation {api : Live2DAPI} (h : StateInv api)
    (x y z : ℚ) : StateInv (set_head_rotation api x y z).1 := by
  simp only [set_head_rotation]
  exact StateInv_set_parameter
    (StateInv_set_parameter (StateInv_set_parameter h _ _) _ _) _ _

theorem play_motion_state_eq (api : Live2DAPI) (g : String) (i p : ℤ)
    (r : Bool × Live2DAPI × List Event) (h : play_motion api g i p = .ok r) :
    r.2.1.state = api.state := by
  unfold play_motion at h
  by_cases hc : p < api.current_priority.value
  · rw [if_pos hc] at h
    cases h
    rfl
  · rw [if_neg hc] at h
    cases hm : MotionPriority.ofValue p <;> rw [hm] at h
    · exact absurd h (by simp)
    · cases h
      rfl

theorem StateInv_applyOp {api : Live2DAPI} (h : StateInv api) (op : Op) :
    StateInv (applyOp api op) := by
  cases op with
  | setParam id v => exact StateInv_set_parameter h id v
  | setExpr n a => exact StateInv_set_expression h n a
  | lipSync l => exact StateInv_set_lip_sync h l
  | eyeTracking x y => exact StateInv_set_eye_tracking h x y
  | headRotation x y z => exact StateInv_set_head_rotation h x y z
  | playMotion g i p =>
      simp only [applyOp]
      cases hpm : play_motion api g i p with
      | ok r =>
          have hst := play_motion_state_eq api g i p r hpm
          unfold StateInv
          rw [hst]
          exact h
      | error e => exact h
  | reset =>
      show StateInv { api with state := defaultLive2DState }
      exact ⟨defaultParams_inRange, le_refl 0, by show (0:ℚ) ≤ 1; norm_num⟩

/-- C2: after every sequence of set_parameter, set_expression, lip sync,
eye tracking, head rotation, play motion and reset operations applied to
the freshly constructed api, every stored parameter value lies within the
declared bounds [-1, 1] and the stored lip sync level lies within
[0, 1]. -/
theorem C2_state_bounds (ops : List Op) :
    StateInv (List.foldl applyOp initialAPI ops) := by
  have base : StateInv initialAPI := ⟨defaultParams_inRange, le_refl 0, by show (0:ℚ) ≤ 1; norm_num⟩
  have aux : ∀ (l : List Op) (api : Live2DAPI), StateInv api →
      StateInv (List.foldl applyOp api l) := by
    intro l
    induction l with
    | nil =>
        intro api h
        simpa using h
    | cons hd tl ih =>
        intro api h
        exact ih (applyOp api hd) (StateInv_applyOp h hd)
  exact aux ops initialAPI base

/-- C9: get_state returns a copy, never a live alias. Over the heap model
of the two mutable dict objects: the snapshot returned by asdict reaches
freshly allocated dicts whose contents equal the store contents at call
time, the snapshot addresses differ from the store addresses, the store
contents are untouched by the call, writing through the snapshot leaves
the store dicts unchanged, and writing through the store afterwards leaves
the snapshot dicts unchanged. -/
theorem C9_get_state_copies (h : Heap) (store : StateRef)
    (hwf : HeapWF h store) :
    (get_state_heap h store).2.paramObjs (get_state_heap h store).1.paramsAddr
      = h.paramObjs store.paramsAddr ∧
    (get_state_heap h store).2.exprObjs (get_state_heap h store).1.exprsAddr
      = h.exprObjs store.exprsAddr ∧
    (get_state_heap h store).1.paramsAddr ≠ store.paramsAddr ∧
    (get_state_heap h store).1.exprsAddr ≠ store.exprsAddr ∧
    (get_state_heap h store).2.paramObjs store.paramsAddr
      = h.paramObjs store.paramsAddr ∧
    (get_state_heap h store).2.exprObjs store.exprsAddr
      = h.exprObjs store.exprsAddr ∧
    (∀ k v, (heapWriteParam (get_state_heap h store).2
        (get_state_heap h store).1.paramsAddr k v).paramObjs store.paramsAddr
      = (get_state_heap h store).2.paramObjs store.paramsAddr) ∧
    (∀ k b, (heapWriteExpr (get_state_heap h store).2
        (get_state_heap h store).1.exprsAddr k b).exprObjs store.exprsAddr
      = (get_state_heap h store).2.exprObjs store.exprsAddr) ∧
    (∀ k v, (heapWriteParam (get_state_heap h store).2
        store.paramsAddr k v).paramObjs (get_state_heap h store).1.paramsAddr
      = (get_state_heap h store).2.paramObjs (get_state_heap h store).1.paramsAddr) ∧
    (∀ k b, (heapWriteExpr (get_state_heap h store).2
        store.exprsAddr k b).exprObjs (get_state_heap h store).1.exprsAddr
      = (get_state_heap h store).2.exprObjs (get_state_heap h store).1.exprsAddr) := by
  obtain ⟨hp, he⟩ := hwf
  have hp1 : store.paramsAddr ≠ h.next := Nat.ne_of_lt hp
  have hp2 : store.paramsAddr ≠ h.next + 1 := by omega
  have he1 : store.exprsAddr ≠ h.next := Nat.ne_of_lt he
  have he2 : store.exprsAddr ≠ h.next + 1 := by omega
  refine ⟨?_, ?_, ?_, ?_, ?_, ?_, ?_, ?_, ?_, ?_⟩ <;>
    simp [get_state_heap, heapWriteParam, heapWriteExpr, hp1, hp2, he1, he2,
          hp1.symm, hp2.symm, he1.symm, he2.symm]

/-- Witness for C9 at the process-start heap, where the store dicts live
at addresses 0 and 1 and the allocation counter is 2. -/
theorem C9_witness :
    HeapWF initialHeap initialStateRef ∧
    ((get_state_heap initialHeap initialStateRef).2.paramObjs
        (get_state_heap initialHeap initialStateRef).1.paramsAddr
      = initialHeap.paramObjs initialStateRef.paramsAddr ∧
     (get_state_heap initialHeap initialStateRef).2.exprObjs
        (get_state_heap initialHeap initialStateRef).1.exprsAddr
      = initialHeap.exprObjs initialStateRef.exprsAddr ∧
     (get_state_heap initialHeap initialStateRef).1.paramsAddr
      ≠ initialStateRef.paramsAddr ∧
     (get_state_heap initialHeap initialStateRef).1.exprsAddr
      ≠ initialStateRef.exprsAddr ∧
     (get_state_heap initialHeap initialStateRef).2.paramObjs
        initialStateRef.paramsAddr
      = initialHeap.paramObjs initialStateRef.paramsAddr ∧
     (get_state_heap initialHeap initialStateRef).2.exprObjs
        initialStateRef.exprsAddr
      = initialHeap.exprObjs initialStateRef.exprsAddr ∧
     (∀ k v, (heapWriteParam (get_state_heap initialHeap initialStateRef).2
         (get_state_heap initialHeap initialStateRef).1.paramsAddr k v).paramObjs
           initialStateRef.paramsAddr
       = (get_state_heap initialHeap initialStateRef).2.paramObjs
           initialStateRef.paramsAddr) ∧
     (∀ k b, (heapWriteExpr (get_state_heap initialHeap initialStateRef).2
         (get_state_heap initialHeap initialStateRef).1.exprsAddr k b).exprObjs
           initialStateRef.exprsAddr
       = (get_state_heap initialHeap initialStateRef).2.exprObjs
           initialStateRef.exprsAddr) ∧
     (∀ k v, (heapWriteParam (get_state_heap initialHeap initialStateRef).2
         initialStateRef.paramsAddr k v).paramObjs
           (get_state_heap initialHeap initialStateRef).1.paramsAddr
       = (get_state_heap initialHeap initialStateRef).2.paramObjs
           (get_state_heap initialHeap initialStateRef).1.paramsAddr) ∧
     (∀ k b, (heapWriteExpr (get_state_heap initialHeap initialStateRef).2
         initialStateRef.exprsAddr k b).exprObjs
           (get_state_heap initialHeap initialStateRef).1.exprsAddr
       = (get_state_heap initialHeap initialStateRef).2.exprObjs
           (get_state_heap initialHeap initialStateRef).1.exprsAddr)) :=
  ⟨⟨by show 0 < 2; norm_num, by show 1 < 2; norm_num⟩,
   C9_get_state_copies initialHeap initialStateRef
     ⟨by show 0 < 2; norm_num, by show 1 < 2; norm_num⟩⟩
